import Mathlib

/-!
Verification development for the accounting core of
`Balance_sheet_provision_learn.py` (an interactive P&L / balance-sheet
teaching app).  The numeric model uses exact rationals ℚ in place of
Python floats; every monetary constant appearing in the source and in the
claims is exactly representable.  The functions `compute_pnl`,
`compute_balance_sheet`, `balance_sheet_gap` and `apply_changes` below are
shallow embeddings of the Python functions of the same names; the dynamic
dictionary semantics of `compute_pnl` (missing keys, non-numeric values)
is modelled separately by `compute_pnl_dyn`.
-/

/-- The session state / input mapping of the app.  The Python code keeps
these fourteen numeric drivers in a dict (`DEFAULTS`, `st.session_state.state`,
`new_vals`); here they form a record.  All values are ℚ. -/
structure FinState where
  revenue : ℚ
  cogs : ℚ
  opex : ℚ
  interest_expense : ℚ
  tax_rate : ℚ
  cash : ℚ
  accounts_receivable : ℚ
  inventory : ℚ
  ppe : ℚ
  allowance_for_doubtful_accounts : ℚ
  accounts_payable : ℚ
  debt : ℚ
  share_capital : ℚ
  retained_earnings : ℚ
deriving DecidableEq, Repr

/-- The `DEFAULTS` dict of the source (lines 8-26). -/
def DEFAULTS : FinState where
  revenue := 100000
  cogs := 40000
  opex := 20000
  interest_expense := 2000
  tax_rate := 1/5
  cash := 20000
  accounts_receivable := 15000
  inventory := 10000
  ppe := 30000
  allowance_for_doubtful_accounts := 500
  accounts_payable := 8000
  debt := 10000
  share_capital := 30000
  retained_earnings := 12000

/-- The dict returned by `compute_pnl` (source lines 49-59); field names
follow the string keys "Revenue", "COGS", "Gross Profit", "Operating
Expenses", "EBIT", "Interest Expense", "EBT", "Tax", "Net Income". -/
structure Pnl where
  revenue : ℚ
  cogs : ℚ
  grossProfit : ℚ
  opex : ℚ
  ebit : ℚ
  interestExpense : ℚ
  ebt : ℚ
  tax : ℚ
  netIncome : ℚ
deriving DecidableEq, Repr

/-- `compute_pnl` (source lines 39-59): gross_profit = revenue - cogs;
ebit = gross_profit - opex; ebt = ebit - interest; tax = max(0, ebt) *
tax_rate; net_income = ebt - tax. -/
def compute_pnl (s : FinState) : Pnl :=
  let revenue := s.revenue
  let cogs := s.cogs
  let gross_profit := revenue - cogs
  let opex := s.opex
  let ebit := gross_profit - opex
  let interest := s.interest_expense
  let ebt := ebit - interest
  let tax := max 0 ebt * s.tax_rate
  let net_income := ebt - tax
  ⟨revenue, cogs, gross_profit, opex, ebit, interest, ebt, tax, net_income⟩

/-- The values returned by `compute_balance_sheet` (source lines 62-88):
the asset lines ("Cash", "Accounts Receivable (gross)", "Less: Allowance
for Doubtful Accounts", "Inventory", "PPE (net)"), the liability lines
("Accounts Payable", "Debt"), the equity lines ("Share Capital",
"Retained Earnings"), and the three totals. -/
structure BalanceSheetLines where
  cash : ℚ
  arGross : ℚ
  lessAllowance : ℚ
  inventory : ℚ
  ppe : ℚ
  accountsPayable : ℚ
  debt : ℚ
  shareCapital : ℚ
  retainedEarnings : ℚ
  totalAssets : ℚ
  totalLiabilities : ℚ
  totalEquity : ℚ
deriving DecidableEq, Repr

/-- `compute_balance_sheet` (source lines 62-88).  The allowance enters
assets negated (line 67); retained earnings are included in equity iff
`include_retained` (line 81, default `True` at every call site). -/
def compute_balance_sheet (s : FinState) (include_retained : Bool) : BalanceSheetLines :=
  let lessAllowance := -s.allowance_for_doubtful_accounts
  let total_assets := s.cash + s.accounts_receivable + lessAllowance + s.inventory + s.ppe
  let total_liabilities := s.accounts_payable + s.debt
  let retained := if include_retained then s.retained_earnings else 0
  let total_equity := s.share_capital + retained
  ⟨s.cash, s.accounts_receivable, lessAllowance, s.inventory, s.ppe,
   s.accounts_payable, s.debt, s.share_capital, retained,
   total_assets, total_liabilities, total_equity⟩

/-- `balance_sheet_gap` (source lines 91-93): total assets minus
(total liabilities + total equity), with retained earnings included. -/
def balance_sheet_gap (s : FinState) : ℚ :=
  let b := compute_balance_sheet s true
  b.totalAssets - (b.totalLiabilities + b.totalEquity)

/-! ## Dynamic dictionary semantics of `compute_pnl`

The Python `compute_pnl` consumes a dict; a missing key raises
`KeyError(key)` (an error that names the field) and a non-numeric operand
of `-`, `*` or `max` raises a `TypeError` whose message names the operand
types, not the field.  `compute_pnl_dyn` models this: dict values are
either numbers or strings, subscripting a missing key yields
`PyErr.keyError` carrying the key, and arithmetic on a non-number yields
`PyErr.typeError` carrying no field name, in the evaluation order of the
source (lines 40-48). -/

/-- A Python value stored in the input dict: a number or a non-numeric
value (modelled by strings, the representative non-numeric type). -/
inductive PyVal where
  | num (q : ℚ)
  | str (v : String)
deriving DecidableEq, Repr

/-- A Python exception as observable here: `KeyError(field)` names the
missing field; `TypeError` (from `-`, `*`, `max` on a non-number) does
not name any field. -/
inductive PyErr where
  | keyError (field : String)
  | typeError
deriving DecidableEq, Repr

/-- A Python dict of driver values. -/
abbrev PyDict := List (String × PyVal)

/-- `d[k]`: raises `KeyError(k)` when `k` is absent. -/
def PyDict.getItem (d : PyDict) (k : String) : Except PyErr PyVal :=
  match d.lookup k with
  | some v => Except.ok v
  | none => Except.error (PyErr.keyError k)

/-- `d.get(k, dflt)` as used at source line 119: never raises, silently
yielding the default when the key is absent. -/
def PyDict.getDefault (d : PyDict) (k : String) (dflt : PyVal) : PyVal :=
  match d.lookup k with
  | some v => v
  | none => dflt

/-- Python `a - b`: defined on numbers, `TypeError` otherwise. -/
def PyVal.sub : PyVal → PyVal → Except PyErr ℚ
  | PyVal.num a, PyVal.num b => Except.ok (a - b)
  | _, _ => Except.error PyErr.typeError

/-- Python `a * b` as used at source line 47 (left operand numeric):
defined on numbers, `TypeError` otherwise. -/
def PyVal.mul : PyVal → PyVal → Except PyErr ℚ
  | PyVal.num a, PyVal.num b => Except.ok (a * b)
  | _, _ => Except.error PyErr.typeError

/-- `compute_pnl` on a raw dict, following the evaluation order of source
lines 40-48: fetch revenue, fetch cogs, subtract; fetch opex, subtract;
fetch interest_expense, subtract; compute `max(0.0, ebt)`, fetch
tax_rate, multiply; subtract.  The final match extracts the (necessarily
numeric, once all arithmetic succeeded) fetched values echoed in the
result dict (source lines 49-59). -/
def compute_pnl_dyn (s : PyDict) : Except PyErr Pnl := do
  let revenue ← s.getItem "revenue"
  let cogs ← s.getItem "cogs"
  let gross_profit ← PyVal.sub revenue cogs
  let opexVal ← s.getItem "opex"
  let ebit ← PyVal.sub (PyVal.num gross_profit) opexVal
  let interest ← s.getItem "interest_expense"
  let ebt ← PyVal.sub (PyVal.num ebit) interest
  let trate ← s.getItem "tax_rate"
  let tax ← PyVal.mul (PyVal.num (max 0 ebt)) trate
  let net_income := ebt - tax
  match revenue, cogs, opexVal, interest with
  | PyVal.num r, PyVal.num c, PyVal.num o, PyVal.num i =>
      Except.ok ⟨r, c, gross_profit, o, ebit, i, ebt, tax, net_income⟩
  | _, _, _, _ => Except.error PyErr.typeError

/-- The `new_vals` dict assembled by the UI (source lines 193-208), with
every driver present and numeric. -/
def FinState.toDict (s : FinState) : PyDict :=
  [("revenue", PyVal.num s.revenue),
   ("cogs", PyVal.num s.cogs),
   ("opex", PyVal.num s.opex),
   ("interest_expense", PyVal.num s.interest_expense),
   ("tax_rate", PyVal.num s.tax_rate),
   ("cash", PyVal.num s.cash),
   ("accounts_receivable", PyVal.num s.accounts_receivable),
   ("allowance_for_doubtful_accounts", PyVal.num s.allowance_for_doubtful_accounts),
   ("inventory", PyVal.num s.inventory),
   ("ppe", PyVal.num s.ppe),
   ("accounts_payable", PyVal.num s.accounts_payable),
   ("debt", PyVal.num s.debt),
   ("share_capital", PyVal.num s.share_capital),
   ("retained_earnings", PyVal.num s.retained_earnings)]

/-! ## `apply_changes` (source lines 103-157)

`apply_changes(new_vals, auto_balance_cash)` mutates the session state
`s` given the previous snapshot `prev`; here it is staged into pure
state-passing functions whose composition is the final state.  The
teaching messages pushed by `push_message` only feed the sidebar UI and
are not modelled.  The float literal `0.005` of the source is the exact
rational 1/200. -/

/-- Source lines 108-116: if the net income computed from `new_vals`
differs from that of `prev` by more than 0.005, add the difference to
retained earnings. -/
def applyDeltaNetIncome (prev s new_vals : FinState) : FinState :=
  let delta_net_income := (compute_pnl new_vals).netIncome - (compute_pnl prev).netIncome
  if |delta_net_income| > 1/200 then
    { s with retained_earnings := s.retained_earnings + delta_net_income }
  else s

/-- Source lines 118-135: if the allowance changed by more than 0.005,
copy revenue and cogs, record the allowance delta as additional opex, and
set the allowance (interest_expense and tax_rate are not copied in this
branch); otherwise copy all six P&L items.  Line 119 reads the allowance
with `.get(key, prev value)`; on the total record `new_vals` this is the
field itself. -/
def applyAllowanceBranch (prev s new_vals : FinState) : FinState :=
  let delta_allowance :=
    new_vals.allowance_for_doubtful_accounts - prev.allowance_for_doubtful_accounts
  if |delta_allowance| > 1/200 then
    { s with revenue := new_vals.revenue
             cogs := new_vals.cogs
             opex := new_vals.opex + delta_allowance
             allowance_for_doubtful_accounts := new_vals.allowance_for_doubtful_accounts }
  else
    { s with revenue := new_vals.revenue
             cogs := new_vals.cogs
             opex := new_vals.opex
             interest_expense := new_vals.interest_expense
             tax_rate := new_vals.tax_rate
             allowance_for_doubtful_accounts := new_vals.allowance_for_doubtful_accounts }

/-- Source lines 137-146: copy the balance-sheet items and cash. -/
def copyBalanceItems (s new_vals : FinState) : FinState :=
  { s with accounts_receivable := new_vals.accounts_receivable
           inventory := new_vals.inventory
           ppe := new_vals.ppe
           accounts_payable := new_vals.accounts_payable
           debt := new_vals.debt
           share_capital := new_vals.share_capital
           cash := new_vals.cash }

/-- The state after source line 146, before the auto-balance step. -/
def applyChangesCopy (prev s new_vals : FinState) : FinState :=
  copyBalanceItems (applyAllowanceBranch prev (applyDeltaNetIncome prev s new_vals) new_vals)
    new_vals

/-- `apply_changes` (source lines 103-157): the staged copies followed by
the auto-balance step (lines 148-154), which, when enabled and the gap
exceeds 0.005 in absolute value, replaces cash by cash minus the gap. -/
def apply_changes (prev s new_vals : FinState) (auto_balance_cash : Bool) : FinState :=
  let s3 := applyChangesCopy prev s new_vals
  let gap := balance_sheet_gap s3
  if auto_balance_cash then
    if |gap| > 1/200 then { s3 with cash := s3.cash - gap } else s3
  else s3

/-- Modelled from the spec: the spec's operating-income line of the
income-statement chain, `operating_income = net_interest_income − opex −
provision_expense` with `net_interest_income = revenue − cogs`.  The
source has no `provision_expense` driver; this definition exists to
compare the spec's chain with the code's. -/
def spec_operating_income (revenue cogs opexAmt provision_expense : ℚ) : ℚ :=
  (revenue - cogs) - opexAmt - provision_expense

/-! ## Concrete inputs used by the claims -/

/-- Scenario 1 of the spec: the P&L drivers plus the opening balances it
lists (gross loans mapped to accounts receivable, deposits to accounts
payable). -/
def scenario1 : FinState :=
  { DEFAULTS with
    revenue := 120000
    cogs := 45000
    opex := 25000
    interest_expense := 3000
    tax_rate := 1/4
    cash := 50000
    accounts_receivable := 400000
    ppe := 30000
    inventory := 0
    allowance_for_doubtful_accounts := 0
    accounts_payable := 300000
    debt := 80000
    share_capital := 50000
    retained_earnings := 0 }

/-- Scenario 3 of the spec: the negative-EBT P&L drivers. -/
def scenario3 : FinState :=
  { DEFAULTS with
    revenue := 10000
    cogs := 40000
    opex := 5000
    interest_expense := 1000
    tax_rate := 1/4 }

/-- A driver dict that carries a `provision_expense` entry of 1000
alongside the five keys `compute_pnl` reads. -/
def pnlDictWithProvision : PyDict :=
  [("revenue", PyVal.num 10000), ("cogs", PyVal.num 0), ("opex", PyVal.num 0),
   ("provision_expense", PyVal.num 1000),
   ("interest_expense", PyVal.num 0), ("tax_rate", PyVal.num 0)]

/-- The state carrying the same five P&L drivers as
`pnlDictWithProvision`. -/
def pnlStateForC2 : FinState :=
  { DEFAULTS with
    revenue := 10000
    cogs := 0
    opex := 0
    interest_expense := 0
    tax_rate := 0 }

/-- A driver dict whose `revenue` holds a non-numeric value. -/
def badRevenueDict : PyDict :=
  [("revenue", PyVal.str "oops"), ("cogs", PyVal.num 40000), ("opex", PyVal.num 20000),
   ("interest_expense", PyVal.num 2000), ("tax_rate", PyVal.num (1/5))]

/-- A state with EBT = 1000 (revenue 10000, cogs 4000, opex 4000,
interest 1000) and tax rate 1/4; a 2000 allowance charge pushes its EBT
below zero. -/
def c6_prev : FinState :=
  { DEFAULTS with
    revenue := 10000
    cogs := 4000
    opex := 4000
    interest_expense := 1000
    tax_rate := 1/4 }

/-- A `new_vals` record that bumps the allowance past the 0.005 threshold
while also requesting new interest_expense and tax_rate values. -/
def c9_new_vals : FinState :=
  { DEFAULTS with
    allowance_for_doubtful_accounts := 1500
    interest_expense := 7777
    tax_rate := 2/5 }

/-- The all-zero state. -/
def zeroState : FinState := ⟨0, 0, 0, 0, 0, 0, 0, 0, 0, 0, 0, 0, 0, 0⟩

/-! ## Helper lemmas -/

/-- Changing only cash moves the gap by exactly the cash change. -/
lemma gap_set_cash (s : FinState) (c : ℚ) :
    balance_sheet_gap { s with cash := c } = balance_sheet_gap s + (c - s.cash) := by
  simp [balance_sheet_gap, compute_balance_sheet]
  ring

/-- When the allowance delta exceeds the threshold, `apply_changes`
produces the provision branch state: revenue/cogs copied, the delta added
to opex, the allowance set, balance-sheet items copied, interest_expense,
tax_rate and retained earnings taken from the net-income stage, and some
cash value (depending on auto-balancing). -/
lemma apply_changes_allowance_branch (prev s new_vals : FinState) (ab : Bool)
    (h : |new_vals.allowance_for_doubtful_accounts
          - prev.allowance_for_doubtful_accounts| > 1/200) :
    ∃ c : ℚ, apply_changes prev s new_vals ab =
      { applyDeltaNetIncome prev s new_vals with
        revenue := new_vals.revenue
        cogs := new_vals.cogs
        opex := new_vals.opex + (new_vals.allowance_for_doubtful_accounts
          - prev.allowance_for_doubtful_accounts)
        allowance_for_doubtful_accounts := new_vals.allowance_for_doubtful_accounts
        accounts_receivable := new_vals.accounts_receivable
        inventory := new_vals.inventory
        ppe := new_vals.ppe
        accounts_payable := new_vals.accounts_payable
        debt := new_vals.debt
        share_capital := new_vals.share_capital
        cash := c } := by
  unfold apply_changes applyChangesCopy copyBalanceItems applyAllowanceBranch
  rw [if_pos h]
  dsimp only
  split_ifs <;> exact ⟨_, rfl⟩

/-- The net-income stage is the identity when `new_vals` and `prev` have
the same P&L. -/
lemma applyDeltaNetIncome_same_pnl (prev s new_vals : FinState)
    (h : compute_pnl new_vals = compute_pnl prev) :
    applyDeltaNetIncome prev s new_vals = s := by
  unfold applyDeltaNetIncome
  rw [h]
  norm_num

/-- The net-income stage never touches interest_expense or tax_rate. -/
lemma applyDeltaNetIncome_keeps (prev s new_vals : FinState) :
    (applyDeltaNetIncome prev s new_vals).interest_expense = s.interest_expense ∧
    (applyDeltaNetIncome prev s new_vals).tax_rate = s.tax_rate := by
  unfold applyDeltaNetIncome
  dsimp only
  split_ifs <;> exact ⟨rfl, rfl⟩

/-! ## C1 -/

/-- C1 counterexample: the balance identity does not hold for every valid
input — at the repository's own `DEFAULTS` state, total assets are 74500
while liabilities plus equity are 60000, a gap of 14500, far outside the
1e-2 tolerance. -/
theorem c1_invariant_fails_at_defaults :
    (compute_balance_sheet DEFAULTS true).totalAssets = 74500 ∧
    (compute_balance_sheet DEFAULTS true).totalLiabilities
      + (compute_balance_sheet DEFAULTS true).totalEquity = 60000 ∧
    balance_sheet_gap DEFAULTS = 14500 ∧
    ¬ |(14500 : ℚ)| < 1/100 := by
  refine ⟨?_, ?_, ?_, ?_⟩ <;>
    norm_num [balance_sheet_gap, compute_balance_sheet, DEFAULTS]

/-- C1 (amended): `compute_balance_sheet` enforces nothing, so the
identity fails for some valid inputs (see the counterexample); what holds
is that every state produced by `apply_changes` with
`auto_balance_cash=True` has |total assets − (total liabilities + total
equity)| ≤ 0.005, within the stated 1e-2 tolerance. -/
theorem c1_gap_bounded_after_auto_balance (prev s new_vals : FinState) :
    |balance_sheet_gap (apply_changes prev s new_vals true)| ≤ 1/200 := by
  unfold apply_changes
  simp only [if_pos]
  by_cases h : |balance_sheet_gap (applyChangesCopy prev s new_vals)| > 1/200
  · rw [if_pos h]
    have h0 : balance_sheet_gap
        { applyChangesCopy prev s new_vals with
          cash := (applyChangesCopy prev s new_vals).cash
            - balance_sheet_gap (applyChangesCopy prev s new_vals) } = 0 := by
      rw [gap_set_cash]; ring
    rw [h0]
    norm_num
  · rw [if_neg h]
    exact le_of_not_lt h

/-! ## C2 -/

/-- C2 counterexample: `compute_pnl` has no provision_expense line.  On a
mapping with revenue 10000, cogs 0, opex 0, interest 0, tax rate 0 and a
`provision_expense` entry of 1000, the code's EBIT is 10000 — the
provision entry is ignored — while the spec's operating-income formula
yields 9000. -/
theorem c2_no_provision_line_in_pnl :
    compute_pnl_dyn pnlDictWithProvision = Except.ok (compute_pnl pnlStateForC2) ∧
    (compute_pnl pnlStateForC2).ebit = 10000 ∧
    spec_operating_income 10000 0 0 1000 = 9000 ∧
    (10000 : ℚ) ≠ 9000 := by
  refine ⟨rfl, ?_, ?_, ?_⟩ <;>
    norm_num [compute_pnl, pnlStateForC2, spec_operating_income, DEFAULTS]

/-- C2 (amended): `compute_pnl` computes gross profit = revenue − cogs,
EBIT = gross profit − opex (no provision term), EBT = EBIT − interest,
tax = max(0, EBT) · tax_rate (floor policy) and net income = EBT − tax.
A provision charge Δ (an allowance change beyond 0.005) enters the P&L
only through `apply_changes`, which adds Δ to opex, so the resulting
state's EBIT equals the spec's operating income revenue − cogs − opex −
Δ, with interest_expense and tax_rate taken from the pre-update state. -/
theorem c2_provision_via_opex_chain (prev s new_vals : FinState) (ab : Bool)
    (h : |new_vals.allowance_for_doubtful_accounts
          - prev.allowance_for_doubtful_accounts| > 1/200) :
    (compute_pnl (apply_changes prev s new_vals ab)).ebit
      = spec_operating_income new_vals.revenue new_vals.cogs new_vals.opex
          (new_vals.allowance_for_doubtful_accounts
            - prev.allowance_for_doubtful_accounts) ∧
    (compute_pnl (apply_changes prev s new_vals ab)).grossProfit
      = new_vals.revenue - new_vals.cogs ∧
    (compute_pnl (apply_changes prev s new_vals ab)).ebt
      = (compute_pnl (apply_changes prev s new_vals ab)).ebit - s.interest_expense ∧
    (compute_pnl (apply_changes prev s new_vals ab)).tax
      = max 0 (compute_pnl (apply_changes prev s new_vals ab)).ebt * s.tax_rate ∧
    (compute_pnl (apply_changes prev s new_vals ab)).netIncome
      = (compute_pnl (apply_changes prev s new_vals ab)).ebt
        - (compute_pnl (apply_changes prev s new_vals ab)).tax := by
  obtain ⟨c, hc⟩ := apply_changes_allowance_branch prev s new_vals ab h
  obtain ⟨hie, htr⟩ := applyDeltaNetIncome_keeps prev s new_vals
  rw [hc]
  simp only [compute_pnl, spec_operating_income]
  rw [hie, htr]
  refine ⟨by ring, ?_, ?_, ?_, ?_⟩ <;> simp

/-- C2 witness: the amended chain at `DEFAULTS` with `c9_new_vals`
(allowance 500 → 1500). -/
theorem c2_provision_via_opex_chain_witness :
    |c9_new_vals.allowance_for_doubtful_accounts
      - DEFAULTS.allowance_for_doubtful_accounts| > 1/200 ∧
    (compute_pnl (apply_changes DEFAULTS DEFAULTS c9_new_vals true)).ebit
      = spec_operating_income c9_new_vals.revenue c9_new_vals.cogs c9_new_vals.opex
          (c9_new_vals.allowance_for_doubtful_accounts
            - DEFAULTS.allowance_for_doubtful_accounts) := by
  have h : |c9_new_vals.allowance_for_doubtful_accounts
      - DEFAULTS.allowance_for_doubtful_accounts| > 1/200 := by
    norm_num [c9_new_vals, DEFAULTS]
  exact ⟨h, (c2_provision_via_opex_chain DEFAULTS DEFAULTS c9_new_vals true h).1⟩

/-! ## C3 -/

/-- C3 counterexample: on revenue 10000, cogs 40000, opex 5000, interest
1000, tax rate 1/4 the code returns EBT = −36000 as claimed, but tax = 0
(floor policy, not the −9000 credit of the symmetric policy) and net
income = −36000 (not −27000). -/
theorem c3_floor_policy_not_symmetric :
    (compute_pnl scenario3).ebt = -36000 ∧
    (compute_pnl scenario3).tax = 0 ∧ (0 : ℚ) ≠ -9000 ∧
    (compute_pnl scenario3).netIncome = -36000 ∧ (-36000 : ℚ) ≠ -27000 := by
  refine ⟨?_, ?_, ?_, ?_, ?_⟩ <;> norm_num [compute_pnl, scenario3, DEFAULTS]

/-- C3 (amended): on the scenario-3 drivers the P&L calculator returns
gross profit −30000, EBIT −35000, EBT −36000, tax = max(−36000, 0) · 1/4
= 0 — the floor policy grants no tax credit — and net income −36000. -/
theorem c3_scenario3_floor_values :
    (compute_pnl scenario3).grossProfit = -30000 ∧
    (compute_pnl scenario3).ebit = -35000 ∧
    (compute_pnl scenario3).ebt = -36000 ∧
    max (0 : ℚ) (-36000) * (1/4) = 0 ∧
    (compute_pnl scenario3).tax = 0 ∧
    (compute_pnl scenario3).netIncome = -36000 := by
  refine ⟨?_, ?_, ?_, ?_, ?_, ?_⟩ <;> norm_num [compute_pnl, scenario3, DEFAULTS]

/-! ## C4 -/

/-- C4: on the scenario-1 drivers (revenue 120000, cogs 45000, opex
25000, interest 3000, tax rate 1/4) the P&L calculator returns EBT 47000,
tax 11750 and net income 35250, as the spec states. -/
theorem c4_scenario1_values :
    (compute_pnl scenario1).ebt = 47000 ∧ (compute_pnl scenario1).tax = 11750 ∧
    (compute_pnl scenario1).netIncome = 35250 := by
  refine ⟨?_, ?_, ?_⟩ <;> norm_num [compute_pnl, scenario1, DEFAULTS]

/-! ## C5 -/

/-- C5 counterexample: applying `apply_changes` with everything equal to
`DEFAULTS` changes retained earnings by 0, yet the period's net income is
30400 — the new retained earnings minus the opening value does not equal
net income; the code flows only the period-over-period CHANGE in net
income to equity. -/
theorem c5_delta_semantics_counterexample :
    (apply_changes DEFAULTS DEFAULTS DEFAULTS true).retained_earnings
      - DEFAULTS.retained_earnings = 0 ∧
    (compute_pnl (apply_changes DEFAULTS DEFAULTS DEFAULTS true)).netIncome = 30400 ∧
    (0 : ℚ) ≠ 30400 := by
  refine ⟨?_, ?_, ?_⟩ <;>
    norm_num [apply_changes, applyChangesCopy, copyBalanceItems, applyAllowanceBranch,
      applyDeltaNetIncome, compute_pnl, balance_sheet_gap, compute_balance_sheet, DEFAULTS]

/-- C5 (amended): after one `apply_changes` step the new retained
earnings equal the old state's retained earnings plus the CHANGE in net
income (net income of `new_vals` minus net income of `prev`) when that
change exceeds 0.005 in absolute value, and are unchanged otherwise; the
allowance is set to the requested new value rather than accumulated, and
the model has no tax-payable account at all. -/
theorem c5_retained_earnings_delta_flow (prev s new_vals : FinState) (ab : Bool) :
    (apply_changes prev s new_vals ab).retained_earnings
      = s.retained_earnings
        + (if |(compute_pnl new_vals).netIncome - (compute_pnl prev).netIncome| > 1/200
           then (compute_pnl new_vals).netIncome - (compute_pnl prev).netIncome else 0) ∧
    (apply_changes prev s new_vals ab).allowance_for_doubtful_accounts
      = new_vals.allowance_for_doubtful_accounts := by
  unfold apply_changes applyChangesCopy copyBalanceItems applyAllowanceBranch applyDeltaNetIncome
  dsimp only
  split_ifs <;> simp

/-! ## C6 -/

/-- C6 counterexample: from a state with EBT 1000 and tax rate 1/4, a
provision charge of Δ = 2000 (allowance 500 → 2500) decreases net income
by 1750, not by Δ·(1 − tax_rate) = 1500 — the code's floor tax policy is
not the symmetric policy, and the claimed decrease fails once EBT crosses
zero. -/
theorem c6_monotonicity_fails_when_ebt_crosses_zero :
    (compute_pnl c6_prev).netIncome
      - (compute_pnl (apply_changes c6_prev c6_prev
          { c6_prev with allowance_for_doubtful_accounts := 2500 } false)).netIncome
      = 1750 ∧
    (2000 : ℚ) * (1 - (1/4 : ℚ)) = 1500 ∧
    (1750 : ℚ) ≠ 1500 := by
  refine ⟨?_, by norm_num, by norm_num⟩
  norm_num [apply_changes, applyChangesCopy, copyBalanceItems, applyAllowanceBranch,
    applyDeltaNetIncome, compute_pnl, balance_sheet_gap, compute_balance_sheet, c6_prev, DEFAULTS]

/-- C6 (amended): charging a provision Δ (allowance increased by Δ, all
other drivers unchanged, |Δ| > 0.005) decreases the net receivables line
(gross receivables minus allowance) by exactly Δ unconditionally; and
under the code's floor tax policy it decreases net income by exactly
Δ·(1 − tax_rate) provided EBT is nonnegative both before and after the
charge. -/
theorem c6_monotonicity_floor_policy (prev : FinState) (d : ℚ)
    (hd : |d| > 1/200) :
    ((compute_balance_sheet prev true).arGross
        + (compute_balance_sheet prev true).lessAllowance)
      - ((compute_balance_sheet (apply_changes prev prev
            { prev with allowance_for_doubtful_accounts :=
                prev.allowance_for_doubtful_accounts + d } false) true).arGross
          + (compute_balance_sheet (apply_changes prev prev
              { prev with allowance_for_doubtful_accounts :=
                  prev.allowance_for_doubtful_accounts + d } false) true).lessAllowance)
      = d ∧
    (0 ≤ (compute_pnl prev).ebt → 0 ≤ (compute_pnl prev).ebt - d →
      (compute_pnl prev).netIncome
        - (compute_pnl (apply_changes prev prev
            { prev with allowance_for_doubtful_accounts :=
                prev.allowance_for_doubtful_accounts + d } false)).netIncome
        = d * (1 - prev.tax_rate)) := by
  obtain ⟨c, hc⟩ := apply_changes_allowance_branch prev prev
    { prev with allowance_for_doubtful_accounts :=
        prev.allowance_for_doubtful_accounts + d } false (by simpa using hd)
  rw [applyDeltaNetIncome_same_pnl prev prev
    { prev with allowance_for_doubtful_accounts :=
        prev.allowance_for_doubtful_accounts + d } rfl] at hc
  rw [hc]
  constructor
  · simp only [compute_balance_sheet]
    ring
  · intro h1 h0
    simp only [compute_pnl] at h1 h0 ⊢
    simp only [add_sub_cancel_left]
    have h0x : (0:ℚ) ≤ prev.revenue - prev.cogs - (prev.opex + d) - prev.interest_expense := by
      linarith
    rw [max_eq_right h1, max_eq_right h0x]
    ring

/-- C6 witness: the amended monotonicity at `DEFAULTS` (EBT 38000) with
Δ = 1000. -/
theorem c6_monotonicity_floor_policy_witness :
    (|(1000 : ℚ)| > 1/200 ∧ 0 ≤ (compute_pnl DEFAULTS).ebt ∧
      0 ≤ (compute_pnl DEFAULTS).ebt - 1000) ∧
    (((compute_balance_sheet DEFAULTS true).arGross
        + (compute_balance_sheet DEFAULTS true).lessAllowance)
      - ((compute_balance_sheet (apply_changes DEFAULTS DEFAULTS
            { DEFAULTS with allowance_for_doubtful_accounts :=
                DEFAULTS.allowance_for_doubtful_accounts + 1000 } false) true).arGross
          + (compute_balance_sheet (apply_changes DEFAULTS DEFAULTS
              { DEFAULTS with allowance_for_doubtful_accounts :=
                  DEFAULTS.allowance_for_doubtful_accounts + 1000 } false) true).lessAllowance)
      = 1000 ∧
    (compute_pnl DEFAULTS).netIncome
      - (compute_pnl (apply_changes DEFAULTS DEFAULTS
          { DEFAULTS with allowance_for_doubtful_accounts :=
              DEFAULTS.allowance_for_doubtful_accounts + 1000 } false)).netIncome
      = 1000 * (1 - DEFAULTS.tax_rate)) := by
  have hd : |(1000 : ℚ)| > 1/200 := by norm_num
  have h1 : 0 ≤ (compute_pnl DEFAULTS).ebt := by norm_num [compute_pnl, DEFAULTS]
  have h0 : 0 ≤ (compute_pnl DEFAULTS).ebt - 1000 := by norm_num [compute_pnl, DEFAULTS]
  obtain ⟨hA, hB⟩ := c6_monotonicity_floor_policy DEFAULTS 1000 hd
  exact ⟨⟨hd, h1, h0⟩, hA, hB h1 h0⟩

/-! ## C7 -/

/-- C7: `compute_pnl` and `compute_balance_sheet` are pure functions of
the state — equal inputs give equal (bit-identical, in exact arithmetic)
outputs — and `compute_pnl` is total on numeric inputs: on the dict of
any fully-numeric state the dynamic semantics raises no exception and
returns exactly the pure result. -/
theorem c7_pipeline_deterministic_total (s₁ s₂ : FinState) (h : s₁ = s₂) :
    compute_pnl s₁ = compute_pnl s₂ ∧
    compute_balance_sheet s₁ true = compute_balance_sheet s₂ true ∧
    compute_pnl_dyn (FinState.toDict s₁) = Except.ok (compute_pnl s₁) := by
  subst h
  exact ⟨rfl, rfl, rfl⟩

/-- C7 witness: determinism and totality at `DEFAULTS`. -/
theorem c7_pipeline_deterministic_total_witness :
    DEFAULTS = DEFAULTS ∧
    (compute_pnl DEFAULTS = compute_pnl DEFAULTS ∧
      compute_balance_sheet DEFAULTS true = compute_balance_sheet DEFAULTS true ∧
      compute_pnl_dyn (FinState.toDict DEFAULTS) = Except.ok (compute_pnl DEFAULTS)) :=
  ⟨rfl, c7_pipeline_deterministic_total DEFAULTS DEFAULTS rfl⟩

/-! ## C8 -/

/-- C8 counterexample: a non-numeric `revenue` makes `compute_pnl` raise
a `TypeError`, which does not name the offending field; and the
`.get(key, default)` read of the allowance (source line 119) silently
yields the default instead of failing when the key is absent. -/
theorem c8_type_error_names_no_field :
    compute_pnl_dyn badRevenueDict = Except.error PyErr.typeError ∧
    PyErr.typeError ≠ PyErr.keyError "revenue" ∧
    PyDict.getDefault [] "allowance_for_doubtful_accounts" (PyVal.num 500) = PyVal.num 500 := by
  refine ⟨rfl, ?_, rfl⟩
  intro hcontra
  exact PyErr.noConfusion hcontra

/-- C8 (amended): for a missing driver field the claim holds — whichever
of the five drivers is absent (the others numeric), `compute_pnl` raises
`KeyError` naming exactly that field; but for a non-numeric value it
raises `TypeError` naming no field, and the allowance read in
`apply_changes` uses `.get` with a silent default. -/
theorem c8_missing_field_key_error :
    (∀ b c d e : ℚ, compute_pnl_dyn
        [("cogs", PyVal.num b), ("opex", PyVal.num c),
         ("interest_expense", PyVal.num d), ("tax_rate", PyVal.num e)]
      = Except.error (PyErr.keyError "revenue")) ∧
    (∀ a c d e : ℚ, compute_pnl_dyn
        [("revenue", PyVal.num a), ("opex", PyVal.num c),
         ("interest_expense", PyVal.num d), ("tax_rate", PyVal.num e)]
      = Except.error (PyErr.keyError "cogs")) ∧
    (∀ a b d e : ℚ, compute_pnl_dyn
        [("revenue", PyVal.num a), ("cogs", PyVal.num b),
         ("interest_expense", PyVal.num d), ("tax_rate", PyVal.num e)]
      = Except.error (PyErr.keyError "opex")) ∧
    (∀ a b c e : ℚ, compute_pnl_dyn
        [("revenue", PyVal.num a), ("cogs", PyVal.num b), ("opex", PyVal.num c),
         ("tax_rate", PyVal.num e)]
      = Except.error (PyErr.keyError "interest_expense")) ∧
    (∀ a b c d : ℚ, compute_pnl_dyn
        [("revenue", PyVal.num a), ("cogs", PyVal.num b), ("opex", PyVal.num c),
         ("interest_expense", PyVal.num d)]
      = Except.error (PyErr.keyError "tax_rate")) :=
  ⟨fun _ _ _ _ => rfl, fun _ _ _ _ => rfl, fun _ _ _ _ => rfl,
   fun _ _ _ _ => rfl, fun _ _ _ _ => rfl⟩

/-! ## C9 -/

/-- C9: when the allowance in `new_vals` differs from the previous value
by more than 0.005, `apply_changes` copies revenue and cogs, sets opex to
the new opex plus the allowance delta and sets the allowance, but does
not copy interest_expense or tax_rate — those two keep the pre-update
state's values. -/
theorem c9_frame_interest_tax_rate_kept (prev s new_vals : FinState) (ab : Bool)
    (h : |new_vals.allowance_for_doubtful_accounts
          - prev.allowance_for_doubtful_accounts| > 1/200) :
    (apply_changes prev s new_vals ab).interest_expense = s.interest_expense ∧
    (apply_changes prev s new_vals ab).tax_rate = s.tax_rate ∧
    (apply_changes prev s new_vals ab).revenue = new_vals.revenue ∧
    (apply_changes prev s new_vals ab).cogs = new_vals.cogs ∧
    (apply_changes prev s new_vals ab).opex = new_vals.opex
      + (new_vals.allowance_for_doubtful_accounts - prev.allowance_for_doubtful_accounts) ∧
    (apply_changes prev s new_vals ab).allowance_for_doubtful_accounts
      = new_vals.allowance_for_doubtful_accounts := by
  obtain ⟨c, hc⟩ := apply_changes_allowance_branch prev s new_vals ab h
  rw [hc]
  exact ⟨(applyDeltaNetIncome_keeps prev s new_vals).1,
    (applyDeltaNetIncome_keeps prev s new_vals).2, rfl, rfl, rfl, rfl⟩

/-- C9 witness: the frame effect at `DEFAULTS` with `c9_new_vals`, whose
requested interest_expense 7777 and tax_rate 2/5 are ignored. -/
theorem c9_frame_interest_tax_rate_kept_witness :
    |c9_new_vals.allowance_for_doubtful_accounts
      - DEFAULTS.allowance_for_doubtful_accounts| > 1/200 ∧
    ((apply_changes DEFAULTS DEFAULTS c9_new_vals true).interest_expense
        = DEFAULTS.interest_expense ∧
      (apply_changes DEFAULTS DEFAULTS c9_new_vals true).tax_rate = DEFAULTS.tax_rate ∧
      (apply_changes DEFAULTS DEFAULTS c9_new_vals true).revenue = c9_new_vals.revenue ∧
      (apply_changes DEFAULTS DEFAULTS c9_new_vals true).cogs = c9_new_vals.cogs ∧
      (apply_changes DEFAULTS DEFAULTS c9_new_vals true).opex = c9_new_vals.opex
        + (c9_new_vals.allowance_for_doubtful_accounts
            - DEFAULTS.allowance_for_doubtful_accounts) ∧
      (apply_changes DEFAULTS DEFAULTS c9_new_vals true).allowance_for_doubtful_accounts
        = c9_new_vals.allowance_for_doubtful_accounts) := by
  have h : |c9_new_vals.allowance_for_doubtful_accounts
      - DEFAULTS.allowance_for_doubtful_accounts| > 1/200 := by
    norm_num [c9_new_vals, DEFAULTS]
  exact ⟨h, c9_frame_interest_tax_rate_kept DEFAULTS DEFAULTS c9_new_vals true h⟩

/-! ## C10 -/

/-- C10 counterexample: from the all-zero state, requesting cash = 1/250
(= 0.004) leaves a residual gap of 1/250 after `apply_changes` with
auto-balancing enabled — the gap is below the 0.005 threshold, cash is
not adjusted, and the final gap is not zero. -/
theorem c10_small_gap_not_zeroed :
    balance_sheet_gap (apply_changes zeroState zeroState
      { zeroState with cash := 1/250 } true) = 1/250 ∧
    (1/250 : ℚ) ≠ 0 := by
  refine ⟨?_, by norm_num⟩
  norm_num [apply_changes, applyChangesCopy, copyBalanceItems, applyAllowanceBranch,
    applyDeltaNetIncome, compute_pnl, balance_sheet_gap, compute_balance_sheet, zeroState,
    abs_of_pos]

/-- C10 (amended): when the gap of the copied state exceeds 0.005 in
absolute value, `apply_changes` with `auto_balance_cash=True` sets cash
to the old cash minus the gap and the resulting state's gap is exactly 0;
gaps of at most 0.005 are left untouched (and may be nonzero, see the
counterexample). -/
theorem c10_auto_balance_zeroes_large_gap (prev s new_vals : FinState)
    (h : |balance_sheet_gap (applyChangesCopy prev s new_vals)| > 1/200) :
    apply_changes prev s new_vals true =
      { applyChangesCopy prev s new_vals with
        cash := (applyChangesCopy prev s new_vals).cash
          - balance_sheet_gap (applyChangesCopy prev s new_vals) } ∧
    balance_sheet_gap (apply_changes prev s new_vals true) = 0 := by
  have h1 : apply_changes prev s new_vals true =
      { applyChangesCopy prev s new_vals with
        cash := (applyChangesCopy prev s new_vals).cash
          - balance_sheet_gap (applyChangesCopy prev s new_vals) } := by
    unfold apply_changes
    dsimp only
    rw [if_pos rfl, if_pos h]
  refine ⟨h1, ?_⟩
  rw [h1, gap_set_cash]
  ring

/-- C10 witness: at `DEFAULTS` (gap 14500 > 0.005) the auto-balance step
zeroes the gap. -/
theorem c10_auto_balance_zeroes_large_gap_witness :
    |balance_sheet_gap (applyChangesCopy DEFAULTS DEFAULTS DEFAULTS)| > 1/200 ∧
    balance_sheet_gap (apply_changes DEFAULTS DEFAULTS DEFAULTS true) = 0 := by
  have h : |balance_sheet_gap (applyChangesCopy DEFAULTS DEFAULTS DEFAULTS)| > 1/200 := by
    norm_num [applyChangesCopy, copyBalanceItems, applyAllowanceBranch, applyDeltaNetIncome,
      compute_pnl, balance_sheet_gap, compute_balance_sheet, DEFAULTS]
  exact ⟨h, (c10_auto_balance_zeroes_large_gap DEFAULTS DEFAULTS DEFAULTS h).2⟩
